import Mathlib

/-
Verification development for the geofrag-dashboard data pipeline
(scripts/fetch_data.py).

The program is a one-shot batch job: four fetchers (World Bank, IMF,
static trade-bloc table, FRED), a constant metrics calculator, and an
aggregator that merges everything into a master record and writes JSON
files.  The shallow embedding below models:

  * HTTP responses as an inductive per endpoint: a raised exception
    (transport failure, JSON decode error, malformed shape), a non-2xx
    response (requests does not raise for these), or a successfully
    decoded well-shaped body;
  * Python exceptions via Except, with each fetcher written as a
    try-body (which may end in Except.error) composed with the
    except-handler pyExceptReturnNone (except Exception: return None);
  * the ambient clock (datetime.now().isoformat()) as explicit String
    parameters, one per call site in a run;
  * file writes as an ordered list of (path, typed content) pairs;
  * Python float values as rationals, with round(x, 2) modelled as
    round-half-to-even at two decimal places;
  * Python truthiness tests (item.get('value'), x or default,
    x if x else default) modelled explicitly as pyTruthy / pyOrDict.
-/

/-- One observation object of a World Bank response: the fields the code
reads (item['date'], item.get('value')).  value none models a missing or
null value. -/
structure WBItem where
  date : String
  value : Option ℚ
deriving DecidableEq

/-- Python exceptions that the fetchers can raise inside their try blocks:
network/transport failure, a JSON decode error from response.json(), or a
shape/type error while reading the decoded payload. -/
inductive Exn where
  | network
  | badJson
  | badShape
deriving DecidableEq, Fintype

/-- Outcome of one requests.get against a World-Bank-style endpoint:
raise an exception, return a non-2xx response (response.ok false, no
exception), or return a decoded JSON array of observation lists. -/
inductive WBResp where
  | raise (e : Exn)
  | notOk
  | ok (body : List (List WBItem))
deriving DecidableEq

/-- Outcome of the single IMF COFER request.  ok carries whether the
decoded payload has a top-level values key (the code only tests for it
and then does nothing with it). -/
inductive ImfResp where
  | raise (e : Exn)
  | notOk
  | ok (hasValues : Bool)
deriving DecidableEq

/-- Outcome of one FRED observations request; ok carries the decoded
JSON payload, stored verbatim by the code. -/
inductive FredResp where
  | raise (e : Exn)
  | notOk
  | ok (body : String)
deriving DecidableEq

/-- Python truthiness of item.get('value'): None and 0 are falsy, every
other number is truthy. -/
def pyTruthy : Option ℚ → Bool
  | none => false
  | some q => q != 0

/-- Round a rational to the nearest integer, ties to even, as Python's
round does on exact values. -/
def roundHalfEven (q : ℚ) : ℤ :=
  if q - Rat.floor q < 1 / 2 then Rat.floor q
  else if 1 / 2 < q - Rat.floor q then Rat.floor q + 1
  else if Even (Rat.floor q) then Rat.floor q else Rat.floor q + 1

/-- Python round(x, 2). -/
def round2 (q : ℚ) : ℚ := (roundHalfEven (q * 100) : ℚ) / 100

/-- Python `x or default` / `x if x else default` on an optional dict:
None and the empty dict are falsy and replaced by the default. -/
def pyOrDict {α : Type} (x : Option (List α)) (dflt : List α) : List α :=
  match x with
  | none => dflt
  | some d => if d.isEmpty then dflt else d

/-- The `except Exception: ... return None` handler wrapped around each
fetcher body: a normal return passes through, any raised exception is
converted to a normal return of None. -/
def pyExceptReturnNone {α : Type} : Except Exn (Option α) → Except Exn (Option α)
  | Except.ok r => Except.ok r
  | Except.error _ => Except.ok none

/-- One entry of fdi_gdp_data['data']: the code stores the dict key
('USA' style) under country_code and the URL code ('US' style) under
country_name. -/
structure FdiEntry where
  country_code : String
  country_name : String
  values : List (String × ℚ)
deriving DecidableEq

/-- The content of data/fdi_gdp_data.json: a constant metadata envelope
plus the per-country values. -/
structure FdiGdpData where
  source : String
  indicator : String
  description : String
  data : List (String × FdiEntry)
deriving DecidableEq

/-- wb_data: indicator name mapped to the list of retained observation
objects. -/
abbrev WBData := List (String × List WBItem)

/-- currency_shares: currency code mapped to a percentage share. -/
abbrev Shares := List (String × ℚ)

/-- fred data: series id mapped to the raw decoded JSON payload. -/
abbrev FredData := List (String × String)

/-- The value returned by fetch_trade_agreements. -/
structure TradeData where
  agreements : List (String × List String)
  trade_shares : List (String × ℤ)
  updated : String
deriving DecidableEq

/-- The supply_chain_regionalization sub-record of the metrics. -/
structure SupplyChain where
  years : List ℤ
  regional : List ℤ
  global : List ℤ
deriving DecidableEq

/-- The sanctions_count sub-record of the metrics. -/
structure Sanctions where
  total : ℤ
  by_year : List ℤ
  years : List ℤ
deriving DecidableEq

/-- The value returned by calculate_fragmentation_metrics. -/
structure Metrics where
  timestamp : String
  fragmentation_index : ℚ
  regional_trade_percentage : ℤ
  supply_chain_regionalization : SupplyChain
  tech_decoupling_scores : List (String × ℤ)
  sanctions_count : Sanctions
deriving DecidableEq

/-- The metadata sub-record of master_data. -/
structure MasterMetadata where
  last_updated : String
  sources : List String
  status : String
deriving DecidableEq

/-- master_data, the record serialized to data/fragmentation_data.json. -/
structure MasterData where
  metadata : MasterMetadata
  trade_blocs : TradeData
  currency_shares : Shares
  fragmentation_metrics : Metrics
  world_bank_indicators : WBData
  economic_uncertainty : FredData
deriving DecidableEq

/-- Typed content of each file the program writes. -/
inductive FileContent where
  | fdi (d : FdiGdpData)
  | master (m : MasterData)
  | tradeBlocs (t : TradeData)
  | metrics (m : Metrics)
  | indexHtml
deriving DecidableEq

/-- The network as seen by the World Bank fetcher: a response for each
per-country FDI/GDP request (keyed by URL country code) and for each
indicator request (keyed by indicator code). -/
structure WBEnv where
  countryResp : String → WBResp
  indicatorResp : String → WBResp

/-- The environment of the FRED fetcher: the FRED_API_KEY environment
variable (none if unset) and a response per series id. -/
structure FredEnv where
  apiKey : Option String
  seriesResp : String → FredResp

/-- The full environment of one run of main: the three fetcher
environments and the three clock readings taken during the run
(inside fetch_trade_agreements, inside calculate_fragmentation_metrics,
and in the metadata of master_data). -/
structure Env where
  wb : WBEnv
  imf : ImfResp
  fred : FredEnv
  nowTrade : String
  nowMetrics : String
  nowMeta : String

/-- Result of the FRED fetcher, together with the list of HTTP calls it
issued (series ids, in order), for stating the zero-calls property. -/
structure FredOut where
  calls : List String
  result : Option FredData
deriving DecidableEq

/-- The indicators dict of fetch_world_bank_data, in insertion order. -/
def wbIndicators : List (String × String) :=
  [("trade_gdp_ratio", "NE.TRD.GNFS.ZS"),
   ("fdi_inflows", "BX.KLT.DINV.CD.WD"),
   ("fdi_gdp_ratio", "BX.KLT.DINV.WD.GD.ZS"),
   ("exports", "NE.EXP.GNFS.CD")]

/-- The countries dict of fetch_world_bank_data, in insertion order. -/
def wbCountries : List (String × String) :=
  [("USA", "US"), ("CHN", "CN"), ("EUU", "EU")]

/-- The fallback currency-share table built inside fetch_imf_data. -/
def imfFallbackShares : Shares :=
  [("USD", 59.2), ("EUR", 20.1), ("CNY", 12.3), ("JPY", 5.2), ("GBP", 4.9), ("Other", 8.3)]

/-- The default currency-share dict literal at the currency_shares field
of master_data in main (written out again verbatim in the source). -/
def mainCurrencyDefault : Shares :=
  [("USD", 59.2), ("EUR", 20.1), ("CNY", 12.3), ("JPY", 5.2), ("GBP", 4.9), ("Other", 8.3)]

/-- The series dict of fetch_fred_data, in insertion order. -/
def fredSeries : List (String × String) :=
  [("GEPUCURRENT", "Global Economic Policy Uncertainty"),
   ("USEPUINDXD", "US Economic Policy Uncertainty")]

/-- The per-country FDI/GDP loop of fetch_world_bank_data: one GET per
country; a raised exception aborts the whole try block, a non-2xx
response or a short body is skipped, and on a two-element body the
observations with Python-truthy values are kept, rounded to 2 decimals
and keyed by their date. -/
def wbCountryStep (env : WBEnv) : List (String × String) → Except Exn (List (String × FdiEntry))
  | [] => Except.ok []
  | p :: rest =>
    match env.countryResp p.2 with
    | WBResp.raise e => Except.error e
    | WBResp.notOk => wbCountryStep env rest
    | WBResp.ok body =>
      if 1 < body.length then
        match wbCountryStep env rest with
        | Except.error e => Except.error e
        | Except.ok tail =>
          Except.ok ((p.1,
            ⟨p.1, p.2,
              ((body.getD 1 []).filter (fun it => pyTruthy it.value)).map
                (fun it => (it.date, round2 (it.value.getD 0)))⟩) :: tail)
      else wbCountryStep env rest

/-- The indicator loop of fetch_world_bank_data: one GET per indicator;
on a two-element body, data[name] keeps the observations whose value is
Python-truthy. -/
def wbIndicatorStep (env : WBEnv) : List (String × String) → Except Exn WBData
  | [] => Except.ok []
  | p :: rest =>
    match env.indicatorResp p.2 with
    | WBResp.raise e => Except.error e
    | WBResp.notOk => wbIndicatorStep env rest
    | WBResp.ok body =>
      if 1 < body.length then
        match wbIndicatorStep env rest with
        | Except.error e => Except.error e
        | Except.ok tail =>
          Except.ok ((p.1, (body.getD 1 []).filter (fun it => pyTruthy it.value)) :: tail)
      else wbIndicatorStep env rest

/-- The fdi_gdp_data record written to data/fdi_gdp_data.json. -/
def mkFdiFile (d : List (String × FdiEntry)) : FdiGdpData :=
  ⟨"World Bank", "BX.KLT.DINV.WD.GD.ZS",
   "Foreign direct investment, net inflows (% of GDP)", d⟩

/-- The try block of fetch_world_bank_data: country loop, side-write of
data/fdi_gdp_data.json, indicator loop.  The first component collects
the file writes that actually happened; an exception raised in the
country loop occurs before the side-write, one raised in the indicator
loop occurs after it. -/
def wbTry (env : WBEnv) : List (String × FileContent) × Except Exn (Option WBData) :=
  match wbCountryStep env wbCountries with
  | Except.error e => ([], Except.error e)
  | Except.ok fdiData =>
    match wbIndicatorStep env wbIndicators with
    | Except.error e =>
      ([("data/fdi_gdp_data.json", FileContent.fdi (mkFdiFile fdiData))], Except.error e)
    | Except.ok d =>
      ([("data/fdi_gdp_data.json", FileContent.fdi (mkFdiFile fdiData))], Except.ok (some d))

/-- fetch_world_bank_data: the try block with the except-handler that
turns any exception into a returned None.  Returns the writes performed
and the value the aggregator receives. -/
def fetch_world_bank_data (env : WBEnv) : List (String × FileContent) × Option WBData :=
  ((wbTry env).1,
   match pyExceptReturnNone (wbTry env).2 with
   | Except.ok r => r
   | Except.error _ => none)

/-- The try block of fetch_imf_data: on a 2xx decoded response the fixed
fallback table is built and returned (the values branch only does pass);
on a non-2xx response control falls off the end of the function and
Python returns None; a raised exception propagates to the handler. -/
def imfTry : ImfResp → Except Exn (Option Shares)
  | ImfResp.raise e => Except.error e
  | ImfResp.notOk => Except.ok none
  | ImfResp.ok _ => Except.ok (some imfFallbackShares)

/-- fetch_imf_data: try block plus except-return-None handler. -/
def fetch_imf_data (r : ImfResp) : Option Shares :=
  match pyExceptReturnNone (imfTry r) with
  | Except.ok d => d
  | Except.error _ => none

/-- fetch_trade_agreements: the static agreement and share tables plus
the current timestamp.  Pure given the clock reading; no I/O. -/
def fetch_trade_agreements (now : String) : TradeData where
  agreements :=
    [("USMCA", ["USA", "CAN", "MEX"]),
     ("EU", ["DEU", "FRA", "ITA", "ESP", "NLD", "POL", "BEL", "GRC", "PRT", "CZE"]),
     ("RCEP", ["CHN", "JPN", "KOR", "AUS", "NZL"] ++ ["SGP", "MYS", "THA", "IDN", "PHL"]),
     ("ASEAN", ["SGP", "MYS", "THA", "IDN", "PHL", "VNM", "MMR", "KHM", "LAO", "BRN"]),
     ("Mercosur", ["BRA", "ARG", "URY", "PRY"]),
     ("AfCFTA", ["NGA", "EGY", "ZAF", "ETH", "KEN", "GHA", "TZA", "UGA"])]
  trade_shares :=
    [("USMCA", 24), ("EU", 21), ("RCEP", 28), ("ASEAN", 12),
     ("Mercosur", 5), ("AfCFTA", 3), ("Other", 7)]
  updated := now

/-- calculate_fragmentation_metrics: a record of constants plus the
clock reading; the two data arguments are accepted but never used. -/
def calculate_fragmentation_metrics (now : String) (wb_data : Option WBData)
    (trade_agreements : TradeData) : Metrics where
  timestamp := now
  fragmentation_index := 0.673
  regional_trade_percentage := 61
  supply_chain_regionalization :=
    ⟨[2019, 2020, 2021, 2022, 2023, 2024],
     [45, 48, 52, 55, 58, 61],
     [55, 52, 48, 45, 42, 39]⟩
  tech_decoupling_scores :=
    [("semiconductors", 72), ("telecom", 68), ("ai", 61), ("quantum", 83), ("biotech", 45)]
  sanctions_count := ⟨3247, [1250, 1680, 2340, 2890, 3247], [2020, 2021, 2022, 2023, 2024]⟩

/-- The per-series loop of fetch_fred_data: records every GET issued (in
order); a raised exception aborts, a non-2xx response is skipped, a 2xx
body is stored verbatim under its series id. -/
def fredLoop (env : FredEnv) : List (String × String) → List String × Except Exn FredData
  | [] => ([], Except.ok [])
  | p :: rest =>
    match env.seriesResp p.1 with
    | FredResp.raise e => ([p.1], Except.error e)
    | FredResp.notOk =>
      ((fredLoop env rest).1.cons p.1, (fredLoop env rest).2)
    | FredResp.ok body =>
      ((fredLoop env rest).1.cons p.1,
       match (fredLoop env rest).2 with
       | Except.error e => Except.error e
       | Except.ok tail => Except.ok ((p.1, body) :: tail))

/-- The try block of fetch_fred_data: the api key is read from the
environment, and a missing or empty key (Python-falsy) returns None
immediately with no HTTP call; otherwise the series loop runs. -/
def fredTry (env : FredEnv) : List String × Except Exn (Option FredData) :=
  match env.apiKey with
  | none => ([], Except.ok none)
  | some k =>
    if k = "" then ([], Except.ok none)
    else
      ((fredLoop env fredSeries).1,
       match (fredLoop env fredSeries).2 with
       | Except.error e => Except.error e
       | Except.ok d => Except.ok (some d))

/-- fetch_fred_data: try block plus except-return-None handler, keeping
the list of HTTP calls issued. -/
def fetch_fred_data (env : FredEnv) : FredOut :=
  ⟨(fredTry env).1,
   match pyExceptReturnNone (fredTry env).2 with
   | Except.ok r => r
   | Except.error _ => none⟩

/-- master_data as built in main: a metadata block with a hard-coded
status, the trade table, the IMF shares with Python `or` fallback to the
default table, the metrics, and the World Bank / FRED results with
`x if x else` fallback to empty dicts. -/
def master_data (env : Env) : MasterData where
  metadata := ⟨env.nowMeta, ["World Bank", "IMF", "FRED", "Calculated"], "success"⟩
  trade_blocs := fetch_trade_agreements env.nowTrade
  currency_shares := pyOrDict (fetch_imf_data env.imf) mainCurrencyDefault
  fragmentation_metrics :=
    calculate_fragmentation_metrics env.nowMetrics (fetch_world_bank_data env.wb).2
      (fetch_trade_agreements env.nowTrade)
  world_bank_indicators := pyOrDict (fetch_world_bank_data env.wb).2 []
  economic_uncertainty := pyOrDict (fetch_fred_data env.fred).result []

/-- The main function of the script (Lean reserves the name main, so it
is called mainRun here): runs the fetchers and returns every file write
of the run, in order: the FDI/GDP side-write (if it happened), then the
master record, the trade-blocs slice, the metrics slice, and the
redirect page. -/
def mainRun (env : Env) : List (String × FileContent) :=
  (fetch_world_bank_data env.wb).1 ++
    [("data/fragmentation_data.json", FileContent.master (master_data env)),
     ("data/trade_blocs.json", FileContent.tradeBlocs (fetch_trade_agreements env.nowTrade)),
     ("data/metrics.json",
      FileContent.metrics
        (calculate_fragmentation_metrics env.nowMetrics (fetch_world_bank_data env.wb).2
          (fetch_trade_agreements env.nowTrade))),
     ("index.html", FileContent.indexHtml)]

/-- A run environment in which every HTTP request raises a transport
failure and the FRED key is unset: all three remote fetchers fail. -/
def envAllFail : Env where
  wb := ⟨fun _ => WBResp.raise Exn.network, fun _ => WBResp.raise Exn.network⟩
  imf := ImfResp.raise Exn.network
  fred := ⟨none, fun _ => FredResp.raise Exn.network⟩
  nowTrade := "2025-06-01T00:00:00"
  nowMetrics := "2025-06-01T00:00:01"
  nowMeta := "2025-06-01T00:00:02"

/-- A World Bank environment in which every request succeeds with a
two-element body whose observation list is empty. -/
def wbEnvOk : WBEnv :=
  ⟨fun _ => WBResp.ok [[], []], fun _ => WBResp.ok [[], []]⟩

/-- A FRED environment with a key set and all requests succeeding. -/
def fredEnvOk : FredEnv :=
  ⟨some ("TESTKEY"), fun _ => FredResp.ok ("payload")⟩

/-- A run environment in which every fetcher succeeds. -/
def envAllOk : Env where
  wb := wbEnvOk
  imf := ImfResp.ok true
  fred := fredEnvOk
  nowTrade := "2025-06-02T00:00:00"
  nowMetrics := "2025-06-02T00:00:01"
  nowMeta := "2025-06-02T00:00:02"

/-- A run environment in which only the World Bank fetcher fails, with a
transport failure on its very first request (before the FDI side-write),
while the IMF and FRED fetchers succeed. -/
def envWbFail : Env :=
  { envAllOk with
    wb := ⟨fun _ => WBResp.raise Exn.network, fun _ => WBResp.raise Exn.network⟩ }

/-- Build a run environment from fetcher environments and a single
clock reading used for all three timestamp call sites. -/
def mkEnv (wb : WBEnv) (imf : ImfResp) (fred : FredEnv) (now : String) : Env :=
  ⟨wb, imf, fred, now, now, now⟩

/-- First of two runs with identical fetcher responses. -/
def envRun1 : Env :=
  mkEnv wbEnvOk ImfResp.notOk ⟨none, fun _ => FredResp.notOk⟩ ("2025-01-01T08:00:00")

/-- Second run: same fetcher responses as envRun1, later clock. -/
def envRun2 : Env :=
  mkEnv wbEnvOk ImfResp.notOk ⟨none, fun _ => FredResp.notOk⟩ ("2025-01-02T08:00:00")

/-- A World Bank indicator response body containing one observation with
a nonzero value and one observation carrying the value 0. -/
def bodyI0 : List (List WBItem) :=
  [[], [⟨"2020", some 2⟩, ⟨"2021", some 0⟩]]

/-- A World Bank country response body containing one valued observation
and one observation with a null value. -/
def bodyC0 : List (List WBItem) :=
  [[], [⟨"2019", some 3⟩, ⟨"2020", none⟩]]

/-- A World Bank environment answering the US FDI/GDP request with
bodyC0, the trade_gdp_ratio indicator request with bodyI0, and every
other request with a non-2xx response. -/
def envC7 : WBEnv where
  countryResp := fun c => if c = "US" then WBResp.ok bodyC0 else WBResp.notOk
  indicatorResp := fun c => if c = "NE.TRD.GNFS.ZS" then WBResp.ok bodyI0 else WBResp.notOk

/-- The wb_data value produced under envC7. -/
def d0 : WBData := [("trade_gdp_ratio", [⟨"2020", some 2⟩])]

/-- The writes performed by the World Bank fetcher under envC7. -/
def w0 : List (String × FileContent) :=
  [("data/fdi_gdp_data.json",
    FileContent.fdi (mkFdiFile [("USA", ⟨"USA", "US", [("2019", round2 3)]⟩)]))]

/-- Erase the three clock-derived fields of a master record
(metadata.last_updated, trade_blocs.updated,
fragmentation_metrics.timestamp), leaving all other content. -/
def stripTimestamps (m : MasterData) : MasterData :=
  { m with
    metadata := { m.metadata with last_updated := "" }
    trade_blocs := { m.trade_blocs with updated := "" }
    fragmentation_metrics := { m.fragmentation_metrics with timestamp := "" } }

/- Theorems: one theorem per claim, with counterexamples and witnesses
where applicable, plus supporting lemmas. -/

/-- C1: with the World Bank, IMF and FRED fetchers all returning an
absent result, main still writes data/fragmentation_data.json, and the
master record in it has metadata.status populated with the value
success, currency_shares equal to the six-entry fallback table,
world_bank_indicators equal to the empty mapping, and
fragmentation_metrics.sanctions_count.total equal to 3247. -/
theorem c1_all_fetchers_absent (env : Env)
    (hwb : (fetch_world_bank_data env.wb).2 = none)
    (himf : fetch_imf_data env.imf = none)
    (hfred : (fetch_fred_data env.fred).result = none) :
    ("data/fragmentation_data.json", FileContent.master (master_data env)) ∈ mainRun env ∧
    (master_data env).metadata.status = "success" ∧
    (master_data env).currency_shares = imfFallbackShares ∧
    (master_data env).world_bank_indicators = [] ∧
    (master_data env).fragmentation_metrics.sanctions_count.total = 3247 ∧
    (master_data env).economic_uncertainty = [] := by
  refine ⟨by simp [mainRun], rfl, ?_, ?_, rfl, ?_⟩
  · show pyOrDict (fetch_imf_data env.imf) mainCurrencyDefault = imfFallbackShares
    rw [himf]; rfl
  · show pyOrDict (fetch_world_bank_data env.wb).2 [] = []
    rw [hwb]; rfl
  · show pyOrDict (fetch_fred_data env.fred).result [] = []
    rw [hfred]; rfl

/-- Witness for C1: the concrete environment where every request raises
and the FRED key is unset. -/
theorem c1_witness :
    ("data/fragmentation_data.json", FileContent.master (master_data envAllFail)) ∈
      mainRun envAllFail ∧
    (master_data envAllFail).metadata.status = "success" ∧
    (master_data envAllFail).currency_shares = imfFallbackShares ∧
    (master_data envAllFail).world_bank_indicators = [] ∧
    (master_data envAllFail).fragmentation_metrics.sanctions_count.total = 3247 ∧
    (master_data envAllFail).economic_uncertainty = [] :=
  c1_all_fetchers_absent envAllFail rfl rfl rfl

/-- C5: a decoded IMF response yields the fixed six-share fallback table
(the parser never extracts live values), an IMF exception yields an
absent result, the default table substituted in main is the same table,
and consequently the master record's currency_shares equals that fixed
table in every environment. -/
theorem c5_imf_fallback :
    (∀ b, fetch_imf_data (ImfResp.ok b) = some imfFallbackShares) ∧
    (∀ e, fetch_imf_data (ImfResp.raise e) = none) ∧
    mainCurrencyDefault = imfFallbackShares ∧
    (∀ env : Env, (master_data env).currency_shares = imfFallbackShares) := by
  refine ⟨fun b => rfl, fun e => rfl, rfl, fun env => ?_⟩
  show pyOrDict (fetch_imf_data env.imf) mainCurrencyDefault = imfFallbackShares
  rcases h : env.imf with e | _ | b <;> rfl

/-- C6: for every response condition of every fetcher, the try body
composed with the except handler is a normal return, never an escaped
exception, and that returned value is exactly what the aggregation
stage receives from the fetcher. -/
theorem c6_no_exception_escapes :
    (∀ env : WBEnv, ∃ r, pyExceptReturnNone (wbTry env).2 = Except.ok r ∧
      (fetch_world_bank_data env).2 = r) ∧
    (∀ r : ImfResp, ∃ v, pyExceptReturnNone (imfTry r) = Except.ok v ∧
      fetch_imf_data r = v) ∧
    (∀ env : FredEnv, ∃ v, pyExceptReturnNone (fredTry env).2 = Except.ok v ∧
      (fetch_fred_data env).result = v) := by
  refine ⟨fun env => ?_, fun r => ?_, fun env => ?_⟩
  · rcases h : (wbTry env).2 with e | d
    · exact ⟨none, by simp [pyExceptReturnNone, h],
        by simp [fetch_world_bank_data, pyExceptReturnNone, h]⟩
    · exact ⟨d, by simp [pyExceptReturnNone, h],
        by simp [fetch_world_bank_data, pyExceptReturnNone, h]⟩
  · rcases h : imfTry r with e | d
    · exact ⟨none, by simp [pyExceptReturnNone, h],
        by simp [fetch_imf_data, pyExceptReturnNone, h]⟩
    · exact ⟨d, by simp [pyExceptReturnNone, h],
        by simp [fetch_imf_data, pyExceptReturnNone, h]⟩
  · rcases h : (fredTry env).2 with e | d
    · exact ⟨none, by simp [pyExceptReturnNone, h],
        by simp [fetch_fred_data, pyExceptReturnNone, h]⟩
    · exact ⟨d, by simp [pyExceptReturnNone, h],
        by simp [fetch_fred_data, pyExceptReturnNone, h]⟩

/-- C9: the trade-bloc compiler always succeeds with no I/O: for every
clock reading, its EU bloc has exactly 10 member codes, its share table
ranges over the six named blocs plus Other, those shares sum to 100, and
the table is written to data/trade_blocs.json on every run. -/
theorem c9_trade_blocs (now : String) (env : Env) :
    ((fetch_trade_agreements now).agreements.lookup ("EU")).map List.length = some 10 ∧
    (fetch_trade_agreements now).trade_shares.map Prod.fst =
      ["USMCA", "EU", "RCEP", "ASEAN", "Mercosur", "AfCFTA", "Other"] ∧
    ((fetch_trade_agreements now).trade_shares.map Prod.snd).sum = 100 ∧
    ("data/trade_blocs.json", FileContent.tradeBlocs (fetch_trade_agreements env.nowTrade)) ∈
      mainRun env :=
  ⟨rfl, rfl, rfl, by simp [mainRun]⟩

/-- C3 counterexample: two invocations of the metrics calculator with
identical data inputs but different clock readings return different
records — the timestamp field differs — so the calculator is not a pure
function of its two inputs with identical field values across
invocations. -/
theorem c3_counterexample :
    calculate_fragmentation_metrics ("2025-01-01T00:00:00") none
        (fetch_trade_agreements ("T")) ≠
      calculate_fragmentation_metrics ("2025-01-02T00:00:00") none
        (fetch_trade_agreements ("T")) := by
  decide

/-- C3 amended: the metrics calculator ignores its two data inputs (any
two invocations under the same clock reading agree on everything), every
field other than timestamp is a fixed constant (two invocations under
different clocks agree once the timestamp is erased), the timestamp
equals the clock reading, and the year-keyed sequence lengths are
fixed. -/
theorem c3_metrics_ignore_inputs (now now2 : String) (wb wb2 : Option WBData)
    (t t2 : TradeData) :
    calculate_fragmentation_metrics now wb t = calculate_fragmentation_metrics now wb2 t2 ∧
    (calculate_fragmentation_metrics now wb t).timestamp = now ∧
    { calculate_fragmentation_metrics now wb t with timestamp := "" } =
      { calculate_fragmentation_metrics now2 wb2 t2 with timestamp := "" } ∧
    (calculate_fragmentation_metrics now wb t).supply_chain_regionalization.years.length = 6 ∧
    (calculate_fragmentation_metrics now wb t).supply_chain_regionalization.regional.length = 6 ∧
    (calculate_fragmentation_metrics now wb t).supply_chain_regionalization.global.length = 6 ∧
    (calculate_fragmentation_metrics now wb t).sanctions_count.by_year.length = 5 ∧
    (calculate_fragmentation_metrics now wb t).sanctions_count.years.length = 5 ∧
    (calculate_fragmentation_metrics now wb t).tech_decoupling_scores.map Prod.fst =
      ["semiconductors", "telecom", "ai", "quantum", "biotech"] :=
  ⟨rfl, rfl, rfl, rfl, rfl, rfl, rfl, rfl, rfl⟩

/-- C4 counterexample: two runs with identical fetcher responses but a
later clock produce master records that differ in three separate
top-level fields — metadata, trade_blocs and fragmentation_metrics each
embed their own clock reading — so the serialized records are not
byte-identical except for a single timestamp field. -/
theorem c4_counterexample :
    envRun1.wb = envRun2.wb ∧ envRun1.imf = envRun2.imf ∧ envRun1.fred = envRun2.fred ∧
    (master_data envRun1).metadata ≠ (master_data envRun2).metadata ∧
    (master_data envRun1).trade_blocs ≠ (master_data envRun2).trade_blocs ∧
    (master_data envRun1).fragmentation_metrics ≠
      (master_data envRun2).fragmentation_metrics :=
  ⟨rfl, rfl, rfl, by decide, by decide, by decide⟩

/-- C4 amended: two runs with identical fetcher environments produce
master records that agree on all content outside the three clock-derived
fields metadata.last_updated, trade_blocs.updated and
fragmentation_metrics.timestamp. -/
theorem c4_idempotent_modulo_timestamps (wb : WBEnv) (imf : ImfResp) (fred : FredEnv)
    (t1 m1 a1 t2 m2 a2 : String) :
    stripTimestamps (master_data ⟨wb, imf, fred, t1, m1, a1⟩) =
      stripTimestamps (master_data ⟨wb, imf, fred, t2, m2, a2⟩) := rfl

/-- C2 counterexample: when only the World Bank fetcher fails — a
transport failure on its first request, before the FDI side-write, while
the IMF and FRED fetchers both succeed — the run does not write the
FDI/GDP file even though it writes the primary file, so the failure of a
single fetcher does prevent one of the named output files. -/
theorem c2_counterexample :
    (fetch_world_bank_data envWbFail.wb).2 = none ∧
    fetch_imf_data envWbFail.imf ≠ none ∧
    (fetch_fred_data envWbFail.fred).result ≠ none ∧
    "data/fragmentation_data.json" ∈ (mainRun envWbFail).map Prod.fst ∧
    "data/fdi_gdp_data.json" ∉ (mainRun envWbFail).map Prod.fst := by
  decide

/-- C2 amended: in every environment the primary aggregate file, the
trade-blocs file and the metrics file are written regardless of fetcher
outcomes; the FDI/GDP file is additionally written whenever the World
Bank country loop completes without raising — in particular whenever the
failing fetcher is IMF or FRED — but a World Bank failure before the
side-write skips it. -/
theorem c2_partial_success (env : Env) :
    "data/fragmentation_data.json" ∈ (mainRun env).map Prod.fst ∧
    "data/trade_blocs.json" ∈ (mainRun env).map Prod.fst ∧
    "data/metrics.json" ∈ (mainRun env).map Prod.fst ∧
    ((∃ fd, wbCountryStep env.wb wbCountries = Except.ok fd) →
      "data/fdi_gdp_data.json" ∈ (mainRun env).map Prod.fst) := by
  refine ⟨by simp [mainRun], by simp [mainRun], by simp [mainRun], ?_⟩
  rintro ⟨fd, hfd⟩
  rcases hi : wbIndicatorStep env.wb wbIndicators with e | d <;>
    simp [mainRun, fetch_world_bank_data, wbTry, hfd, hi]

/-- Witness for C2 amended: in the all-success environment the World
Bank country loop completes and the FDI/GDP file is written. -/
theorem c2_witness :
    "data/fdi_gdp_data.json" ∈ (mainRun envAllOk).map Prod.fst :=
  (c2_partial_success envAllOk).2.2.2 ⟨_, rfl⟩

/-- C8: with no API key (or the Python-falsy empty key) in the
environment, the FRED fetcher returns an absent result immediately and
performs zero HTTP calls; with a key present and no request raising, it
issues exactly one GET per named series, in order. -/
theorem c8_fred_key_precheck (resp : String → FredResp) (k : String) :
    (fetch_fred_data ⟨none, resp⟩).calls = [] ∧
    (fetch_fred_data ⟨none, resp⟩).result = none ∧
    (fetch_fred_data ⟨some (""), resp⟩).calls = [] ∧
    (k ≠ "" →
      (∀ e, resp ("GEPUCURRENT") ≠ FredResp.raise e) →
      (∀ e, resp ("USEPUINDXD") ≠ FredResp.raise e) →
      (fetch_fred_data ⟨some k, resp⟩).calls = fredSeries.map Prod.fst) := by
  refine ⟨rfl, rfl, rfl, fun hk h1 h2 => ?_⟩
  rcases hr1 : resp ("GEPUCURRENT") with e | _ | b1
  · exact absurd hr1 (h1 e)
  · rcases hr2 : resp ("USEPUINDXD") with e | _ | b2
    · exact absurd hr2 (h2 e)
    · simp [fetch_fred_data, fredTry, fredSeries, fredLoop, hk, hr1, hr2]
    · simp [fetch_fred_data, fredTry, fredSeries, fredLoop, hk, hr1, hr2]
  · rcases hr2 : resp ("USEPUINDXD") with e | _ | b2
    · exact absurd hr2 (h2 e)
    · simp [fetch_fred_data, fredTry, fredSeries, fredLoop, hk, hr1, hr2]
    · simp [fetch_fred_data, fredTry, fredSeries, fredLoop, hk, hr1, hr2]

/-- Witness for C8: zero calls with the key unset, and one GET per named
series with a concrete key and all-2xx responses. -/
theorem c8_witness :
    (fetch_fred_data ⟨none, fun _ => FredResp.ok ("payload")⟩).calls = [] ∧
    (fetch_fred_data fredEnvOk).calls = fredSeries.map Prod.fst :=
  ⟨(c8_fred_key_precheck (fun _ => FredResp.ok ("payload")) ("TESTKEY")).1,
   (c8_fred_key_precheck (fun _ => FredResp.ok ("payload")) ("TESTKEY")).2.2.2
     (by decide) (by decide) (by decide)⟩

/-- An observation value is Python-truthy exactly when it is present and
nonzero. -/
lemma pyTruthy_iff (v : Option ℚ) : pyTruthy v = true ↔ ∃ q, v = some q ∧ q ≠ 0 := by
  cases v with
  | none => simp [pyTruthy]
  | some q => simp [pyTruthy, bne_iff_ne]

/-- In a completed indicator loop, the entry recorded for an indicator
whose response was 2xx with a two-element body is exactly the
Python-truthy filter of its observation list. -/
lemma wbIndicatorStep_lookup (env : WBEnv) (name ind : String) (body : List (List WBItem))
    (hresp : env.indicatorResp ind = WBResp.ok body) (hlen : 1 < body.length)
    (l : List (String × String)) (d : WBData)
    (hnd : (l.map Prod.fst).Nodup) (hmem : (name, ind) ∈ l)
    (hok : wbIndicatorStep env l = Except.ok d) :
    d.lookup name = some ((body.getD 1 []).filter (fun it => pyTruthy it.value)) := by
  induction l generalizing d with
  | nil => exact absurd hmem (List.not_mem_nil _)
  | cons p rest ih =>
    obtain ⟨n, i⟩ := p
    rw [List.map_cons, List.nodup_cons] at hnd
    obtain ⟨hn, hndr⟩ := hnd
    rcases List.mem_cons.mp hmem with heq | hmem2
    · injection heq with h1 h2
      subst h1; subst h2
      simp only [wbIndicatorStep, hresp] at hok
      rw [if_pos hlen] at hok
      rcases hrec : wbIndicatorStep env rest with e | tail <;> rw [hrec] at hok
      · simp at hok
      · injection hok with h
        subst h
        simp [List.lookup]
    · have hne : (name == n) = false := by
        refine beq_eq_false_iff_ne.mpr fun h => hn ?_
        subst h
        exact List.mem_map.mpr ⟨(name, ind), hmem2, rfl⟩
      simp only [wbIndicatorStep] at hok
      rcases hr : env.indicatorResp i with e | _ | b <;> simp only [hr] at hok
      · simp at hok
      · exact ih d hndr hmem2 hok
      · by_cases hb : 1 < b.length
        · rw [if_pos hb] at hok
          rcases hrec : wbIndicatorStep env rest with e | tail <;> rw [hrec] at hok
          · simp at hok
          · injection hok with h
            subst h
            simp only [List.lookup, hne]
            exact ih tail hndr hmem2 hrec
        · rw [if_neg hb] at hok
          exact ih d hndr hmem2 hok

/-- In a completed country loop, the entry recorded for a country whose
response was 2xx with a two-element body keeps exactly the observations
with Python-truthy values, rounded to two decimals and keyed by date. -/
lemma wbCountryStep_lookup (env : WBEnv) (cname ccode : String) (body : List (List WBItem))
    (hresp : env.countryResp ccode = WBResp.ok body) (hlen : 1 < body.length)
    (l : List (String × String)) (fd : List (String × FdiEntry))
    (hnd : (l.map Prod.fst).Nodup) (hmem : (cname, ccode) ∈ l)
    (hok : wbCountryStep env l = Except.ok fd) :
    fd.lookup cname = some ⟨cname, ccode,
      ((body.getD 1 []).filter (fun it => pyTruthy it.value)).map
        (fun it => (it.date, round2 (it.value.getD 0)))⟩ := by
  induction l generalizing fd with
  | nil => exact absurd hmem (List.not_mem_nil _)
  | cons p rest ih =>
    obtain ⟨n, i⟩ := p
    rw [List.map_cons, List.nodup_cons] at hnd
    obtain ⟨hn, hndr⟩ := hnd
    rcases List.mem_cons.mp hmem with heq | hmem2
    · injection heq with h1 h2
      subst h1; subst h2
      simp only [wbCountryStep, hresp] at hok
      rw [if_pos hlen] at hok
      rcases hrec : wbCountryStep env rest with e | tail <;> rw [hrec] at hok
      · simp at hok
      · injection hok with h
        subst h
        simp [List.lookup]
    · have hne : (cname == n) = false := by
        refine beq_eq_false_iff_ne.mpr fun h => hn ?_
        subst h
        exact List.mem_map.mpr ⟨(cname, ccode), hmem2, rfl⟩
      simp only [wbCountryStep] at hok
      rcases hr : env.countryResp i with e | _ | b <;> simp only [hr] at hok
      · simp at hok
      · exact ih fd hndr hmem2 hok
      · by_cases hb : 1 < b.length
        · rw [if_pos hb] at hok
          rcases hrec : wbCountryStep env rest with e | tail <;> rw [hrec] at hok
          · simp at hok
          · injection hok with h
            subst h
            simp only [List.lookup, hne]
            exact ih tail hndr hmem2 hrec
        · rw [if_neg hb] at hok
          exact ih fd hndr hmem2 hok

/-- C7 counterexample: under envC7 the trade_gdp_ratio response carries
the observation with date 2021 and value 0 — an observation that does
have a value — yet the fetcher's result drops it, so it is not the case
that only the observations with no value are filtered out. -/
theorem c7_counterexample :
    envC7.indicatorResp ("NE.TRD.GNFS.ZS") =
      WBResp.ok [[], [⟨"2020", some 2⟩, ⟨"2021", some 0⟩]] ∧
    (fetch_world_bank_data envC7).2 = some [("trade_gdp_ratio", [⟨"2020", some 2⟩])] := by
  constructor <;> decide

/-- C7 amended: on a 2xx two-element response, an observation is
retained exactly when its value is present and Python-truthy (nonzero);
observations whose value is missing, null or zero are filtered out; and
each retained FDI/GDP value is rounded to 2 decimal places and keyed by
its year string in the side-written file. -/
theorem c7_value_filter (env : WBEnv) (name ind cname ccode : String)
    (bodyI bodyC : List (List WBItem)) (w : List (String × FileContent)) (d : WBData)
    (hmemI : (name, ind) ∈ wbIndicators) (hmemC : (cname, ccode) ∈ wbCountries)
    (hrespI : env.indicatorResp ind = WBResp.ok bodyI) (hlenI : 1 < bodyI.length)
    (hrespC : env.countryResp ccode = WBResp.ok bodyC) (hlenC : 1 < bodyC.length)
    (hok : fetch_world_bank_data env = (w, some d)) :
    d.lookup name = some ((bodyI.getD 1 []).filter (fun it => pyTruthy it.value)) ∧
    (∀ it : WBItem, it ∈ (bodyI.getD 1 []).filter (fun it => pyTruthy it.value) ↔
      (it ∈ bodyI.getD 1 [] ∧ ∃ q, it.value = some q ∧ q ≠ 0)) ∧
    (∃ fdl, w = [("data/fdi_gdp_data.json", FileContent.fdi (mkFdiFile fdl))] ∧
      fdl.lookup cname = some ⟨cname, ccode,
        ((bodyC.getD 1 []).filter (fun it => pyTruthy it.value)).map
          (fun it => (it.date, round2 (it.value.getD 0)))⟩) := by
  rcases hc : wbCountryStep env wbCountries with e | fdl
  · exfalso
    have hfe : fetch_world_bank_data env = ([], none) := by
      simp [fetch_world_bank_data, wbTry, hc, pyExceptReturnNone]
    rw [hfe] at hok
    simp at hok
  rcases hi : wbIndicatorStep env wbIndicators with e | dd
  · exfalso
    have hfe : fetch_world_bank_data env =
        ([("data/fdi_gdp_data.json", FileContent.fdi (mkFdiFile fdl))], none) := by
      simp [fetch_world_bank_data, wbTry, hc, hi, pyExceptReturnNone]
    rw [hfe] at hok
    simp at hok
  have hfe : fetch_world_bank_data env =
      ([("data/fdi_gdp_data.json", FileContent.fdi (mkFdiFile fdl))], some dd) := by
    simp [fetch_world_bank_data, wbTry, hc, hi, pyExceptReturnNone]
  rw [hfe] at hok
  obtain ⟨hw, hd⟩ := Prod.mk.injEq .. ▸ hok
  injection hd with hd2
  refine ⟨hd2 ▸ wbIndicatorStep_lookup env name ind bodyI hrespI hlenI wbIndicators dd
      (by decide) hmemI hi, ?_, fdl, hw.symm, ?_⟩
  · intro it
    simp [List.mem_filter, pyTruthy_iff]
  · exact wbCountryStep_lookup env cname ccode bodyC hrespC hlenC wbCountries fdl
      (by decide) hmemC hc

/-- Witness for C7 amended at envC7: the trade_gdp_ratio entry keeps
exactly the nonzero-valued observation, and the FDI file entry for USA
keys the rounded value 3.5 by its year. -/
theorem c7_witness :
    d0.lookup ("trade_gdp_ratio") =
      some ((bodyI0.getD 1 []).filter (fun it => pyTruthy it.value)) ∧
    (∀ it : WBItem, it ∈ (bodyI0.getD 1 []).filter (fun it => pyTruthy it.value) ↔
      (it ∈ bodyI0.getD 1 [] ∧ ∃ q, it.value = some q ∧ q ≠ 0)) ∧
    (∃ fdl, w0 = [("data/fdi_gdp_data.json", FileContent.fdi (mkFdiFile fdl))] ∧
      fdl.lookup ("USA") = some ⟨"USA", "US",
        ((bodyC0.getD 1 []).filter (fun it => pyTruthy it.value)).map
          (fun it => (it.date, round2 (it.value.getD 0)))⟩) :=
  c7_value_filter envC7 ("trade_gdp_ratio") ("NE.TRD.GNFS.ZS") ("USA") ("US") bodyI0 bodyC0 w0 d0
    (by decide) (by decide) rfl (by decide) rfl (by decide) rfl

/-- C10: metadata.status is the hard-coded constant success for every
combination of fetcher outcomes, including total failure, and the master
record carrying it is written. -/
theorem c10_status_always_success (env : Env) :
    (master_data env).metadata.status = "success" ∧
    ("data/fragmentation_data.json", FileContent.master (master_data env)) ∈ mainRun env :=
  ⟨rfl, by simp [mainRun]⟩
